import Mathlib

/-!
Verification of the chunked parallel voxel-wise engine of scilpy against its
specification. The code under study lives in
`scilpy/reconst/multi_processes.py` (fit_from_model, peaks_from_sh,
maps_from_sh, convert_sh_basis, convert_sh_to_sf, fit_gamma),
`scilpy/tracking/seed.py` (SeedGenerator) and
`scilpy/tracking/trackable_dataset.py` (Dataset, Seed).

Modelling conventions.  Volumes are flattened to their row-major voxel order:
a volume is a list of voxels, each voxel a list of channel values.  Channel
values are taken in `Int`: every property settled here depends only on
zero tests, sums, maxima and list placement, all of which are exact on
integer-valued floating point data (the concrete inputs used below are small
integers, exactly representable in IEEE doubles).  The float value `-np.inf`
is modelled as `none` in `Option Int`.  Random generators are modelled
abstractly as a state type with a deterministic step function: drawing one
value advances the state by one step, and drawing a batch of `k` values
advances it by `k` steps, which is exactly how numpy's `RandomState` stream
behaves with respect to `random_sample`/`rand` batches.
-/

/-- `np.sum(data, axis=3).astype(bool)` applied to one voxel
(multi_processes.py lines 58, 60, 193, 328, 475, 566, 657): the derived mask
is true at a voxel iff the sum of its channel values is nonzero. -/
def derivedMask (v : List Int) : Bool :=
  decide (v.sum ≠ 0)

/-- `data[i].any()` / `shm_coeff[idx].any()` (multi_processes.py lines 25,
112, 263, 419, 516, 609): true iff some channel value of the voxel is
nonzero.  This is the guard every chunk worker uses before invoking the
per-voxel function. -/
def anyNonzero (v : List Int) : Bool :=
  v.any (fun c => decide (c ≠ 0))

/-- Effective mask of `fit_from_model` at one voxel when a user mask is
supplied (multi_processes.py lines 59-61): `mask_any = np.sum(...).astype(bool);
mask *= mask_any`, i.e. the user mask ANDed with the derived mask. -/
def fit_from_model_effMaskVox (m : Bool) (v : List Int) : Bool :=
  m && derivedMask v

/-- Effective mask of `peaks_from_sh` at one voxel when a user mask is
supplied (multi_processes.py lines 192-193): the user mask is used unchanged;
no combination with the derived mask happens. -/
def peaks_from_sh_effMaskVox (m : Bool) (v : List Int) : Bool :=
  m

/-- Effective mask of `fit_gamma` at one voxel when a user mask is supplied
(multi_processes.py lines 656-657): the user mask is used unchanged. -/
def fit_gamma_effMaskVox (m : Bool) (v : List Int) : Bool :=
  m

/-- Whether `fit_from_model` actually invokes `model.fit` on a voxel: the
voxel must pass the effective mask (to enter the compact list, lines 59-69)
and its data row must be nonzero (`data[i].any()`, line 25). -/
def fit_from_model_invoked (m : Bool) (v : List Int) : Bool :=
  fit_from_model_effMaskVox m v && anyNonzero v

/-- Whether `peaks_from_sh` actually invokes `peak_directions` on a voxel
(lines 200-202 select by mask, line 112 guards with `.any()`). -/
def peaks_from_sh_invoked (m : Bool) (v : List Int) : Bool :=
  peaks_from_sh_effMaskVox m v && anyNonzero v

/-- Whether `fit_gamma` actually invokes `gamma_data2fit` on a voxel
(lines 664-665 select by mask, line 609 guards with `.any()`). -/
def fit_gamma_invoked (m : Bool) (v : List Int) : Bool :=
  fit_gamma_effMaskVox m v && anyNonzero v

/-- The caller's mask array after `fit_from_model` returns
(multi_processes.py line 61): `mask *= mask_any` is an in-place numpy
operation on the caller-supplied array, so on exit the caller's mask holds
its old value ANDed voxelwise with the derived mask. -/
def fit_from_model_maskAfter (m : List Bool) (vol : List (List Int)) : List Bool :=
  List.zipWith (fun b v => b && derivedMask v) m vol

/-- The caller's mask array after `peaks_from_sh` returns: the function never
writes to the mask array (lines 191-239 only read it), so it is unchanged.
The same holds for `maps_from_sh`, `convert_sh_basis`, `convert_sh_to_sf` and
`fit_gamma`. -/
def peaks_from_sh_maskAfter (m : List Bool) : List Bool :=
  m

/-- Size of chunk `i` when `M` voxels are split into `K` chunks by
`np.array_split` (multi_processes.py lines 70, 202, 342-345, 485, 572, 665).
Modelled from numpy's documented behaviour of `array_split(a, K)`: the first
`M % K` chunks have size `M / K + 1` and the remaining ones size `M / K`. -/
def chunkSize (M K i : Nat) : Nat :=
  if i < M % K then M / K + 1 else M / K

/-- The ordered list of chunk sizes produced by `np.array_split`. -/
def chunkSizes (M K : Nat) : List Nat :=
  (List.range K).map (chunkSize M K)

/-- `chunk_len = np.cumsum([0] + [len(c) for c in chunks])`
(multi_processes.py lines 72, 203, 346, 486, 573, 667): the cumulative offset
of chunk `i`, i.e. the sum of the sizes of the chunks before it. -/
def chunkOffset (M K i : Nat) : Nat :=
  ((chunkSizes M K).take i).sum

/-- Cut a list into consecutive pieces of the given sizes. -/
def splitSizes {α : Type} (sizes : List Nat) (l : List α) : List (List α) :=
  match sizes with
  | [] => []
  | s :: rest => l.take s :: splitSizes rest (l.drop s)

/-- `np.array_split(l, K)`: consecutive chunks of the sizes given by
`chunkSizes`. -/
def arraySplit {α : Type} (l : List α) (K : Nat) : List (List α) :=
  splitSizes (chunkSizes l.length K) l

/-- Number of chunks produced by `np.array_split(data, K)`.  The source never
clamps this to the number of voxels: `array_split` always produces exactly
`K` pieces, padding with empty chunks when `K` exceeds the data length. -/
def numChunksOf (M K : Nat) : Nat :=
  (chunkSizes M K).length

/-- Worker-count resolution of `fit_from_model` (multi_processes.py lines
63-65) and `fit_gamma` (lines 659-660): `multiprocessing.cpu_count() if
nbr_processes is None or nbr_processes <= 0 else nbr_processes`. -/
def fit_from_model_nbr (cpu : Int) (req : Option Int) : Int :=
  match req with
  | none => cpu
  | some k => if k ≤ 0 then cpu else k

/-- Worker-count resolution of `peaks_from_sh` (multi_processes.py lines
195-196), `maps_from_sh` (lines 330-332) and `convert_sh_basis` (lines
477-479): `cpu_count() if nbr_processes is None or nbr_processes < 0 else
nbr_processes`.  Note the strict `< 0`: a requested count of exactly `0` is
kept. -/
def peaks_from_sh_nbr (cpu : Int) (req : Option Int) : Int :=
  match req with
  | none => cpu
  | some k => if k < 0 then cpu else k

/-- The effective mask, as a list over voxels, used by the operations that do
not combine a supplied mask with the derived mask (`peaks_from_sh`,
`maps_from_sh`, `convert_sh_basis`, `convert_sh_to_sf`, `fit_gamma`): the
derived sum-nonzero mask when absent, the user mask unchanged when present. -/
def effMaskNoAnd (um : Option (List Bool)) (vol : List (List Int)) : List Bool :=
  match um with
  | none => vol.map derivedMask
  | some m => m

/-- `data[mask]` for a flattened volume: the rows at mask-true positions, in
scan order. -/
def maskedRows (vol : List (List Int)) (mask : List Bool) : List (List Int) :=
  (List.zip mask vol).filterMap (fun p => if p.1 then some p.2 else none)

/-- One `fit_gamma_parallel` worker (multi_processes.py lines 597-614):
starts from `np.zeros((n, 4))` and overwrites row `i` with the fitted
parameters whenever `data[i].any()`; all-zero rows keep the default zero row.
The external per-voxel fit `gamma_data2fit` (scilpy/reconst/divide_fit, an
injected voxel function outside this engine) is the parameter `f`. -/
def fit_gamma_worker (f : List Int → List Int) (chunk : List (List Int)) :
    List (List Int) :=
  chunk.map (fun row => if anyNonzero row then f row else List.replicate 4 0)

/-- Scatter values back into volume layout: `fit_array[mask] = tmp_fit_array`
starting from an all-zero array (multi_processes.py lines 682-687).  Mask-true
positions consume the values in order; mask-false positions keep the default
row. -/
def scatter (mask : List Bool) (vals : List (List Int)) (d : List Int) :
    List (List Int) :=
  match mask with
  | [] => []
  | b :: rest =>
    if b then vals.headD d :: scatter rest vals.tail d
    else d :: scatter rest vals d

/-- The whole `fit_gamma` call (multi_processes.py lines 617-689) on the
flattened model, paired with the list of warning messages it logs.  The mask
is derived (or taken unchanged, lines 656-657), masked rows are split with
`np.array_split` (line 665), each chunk is processed by `fit_gamma_parallel`,
the chunk outputs are written back at the cumulative offsets — since
`pool.map` returns results in chunk order and the slices
`chunk_len[i]..chunk_len[i+1]` are exactly consecutive, reassembly is the
concatenation of the chunk outputs — and the result is scattered through the
mask into a zero-initialized volume (lines 682-687).  The source of
`fit_gamma` contains no `logging` call on any path, in particular none for an
empty mask, so the warning list is empty. -/
def fit_gammaW (f : List Int → List Int) (vol : List (List Int))
    (um : Option (List Bool)) (K : Nat) : List (List Int) × List String :=
  (scatter (effMaskNoAnd um vol)
    (((arraySplit (maskedRows vol (effMaskNoAnd um vol)) K).map
      (fit_gamma_worker f)).flatten)
    (List.replicate 4 0), [])

/-- `SeedGenerator.__init__` (seed.py lines 36-37) logs a warning exactly
when the list of candidate seed voxels is empty. -/
def seedGeneratorWarns (numSeeds : Nat) : Bool :=
  numSeeds == 0

/-- Python `max` / `np.maximum` on floats where `none` stands for
`-np.inf`. -/
def negInfMax : Option Int → Option Int → Option Int
  | none, b => b
  | some x, none => some x
  | some x, some y => some (max x y)

/-- The pair of scalar aggregates one `maps_from_sh_parallel` worker returns
(multi_processes.py lines 260-283): `max_odf` starts at `0` and
`global_max` starts at `-np.inf`. -/
structure ChunkAgg where
  max_odf : Int
  global_max : Option Int
  deriving DecidableEq

/-- The aggregate part of one `maps_from_sh_parallel` worker over its chunk
(multi_processes.py lines 260-280).  Each row is abstracted to `none` when
`shm_coeff[idx].any()` is false (the row is skipped) and otherwise to the
pair of its `sum_odf` value (clipped odf, hence nonnegative, folded by
`max_odf = np.maximum(max_odf, sum_odf)`) and its contribution to
`global_max` (`odf.max()` or `peak_values[idx][0]` depending on the gfa
branch, `none` when neither branch updates it).  The odf arithmetic itself is
external dipy/numpy numeric code; only the fold structure matters here. -/
def runWorkerAgg (rows : List (Option (Int × Option Int))) : ChunkAgg :=
  rows.foldl
    (fun acc row =>
      match row with
      | none => acc
      | some p => ⟨max acc.max_odf p.1, negInfMax acc.global_max p.2⟩)
    ⟨0, none⟩

/-- The aggregate-combination loop of `maps_from_sh` (multi_processes.py
lines 378-383), exactly as written in the source:

    all_time_max_odf = -np.inf
    all_time_global_max = -np.inf
    for (..., max_odf, global_max) in results:
        all_time_max_odf = max(all_time_global_max, max_odf)
        all_time_global_max = max(all_time_global_max, global_max)

Note the first update reads `all_time_global_max`, not `all_time_max_odf`.
Returns the final `(all_time_max_odf, all_time_global_max)`. -/
def mapsReduce (results : List ChunkAgg) : Option Int × Option Int :=
  results.foldl
    (fun acc r => (negInfMax acc.2 (some r.max_odf), negInfMax acc.2 r.global_max))
    (none, none)

/-- The maximum over all chunks of the per-chunk `max_odf` aggregate — the
value the specification intends `all_time_max_odf` to be. -/
def foldMaxOdf (rs : List ChunkAgg) : Option Int :=
  rs.foldl (fun a r => negInfMax a (some r.max_odf)) none

/-- The maximum over all chunks of the per-chunk `global_max` aggregate. -/
def foldGlobalMax (rs : List ChunkAgg) : Option Int :=
  rs.foldl (fun a r => negInfMax a r.global_max) none

/-- The combined aggregates `(all_time_max_odf, all_time_global_max)`
produced by `maps_from_sh` when the masked voxel rows are split into `K`
chunks: chunks via `np.array_split` (lines 342-346), one worker per chunk
(lines 349-357), then the reduction loop (lines 378-383). -/
def mapsAggregates (rows : List (Option (Int × Option Int))) (K : Nat) :
    Option Int × Option Int :=
  mapsReduce ((arraySplit rows K).map runWorkerAgg)

/-- `Nat.iterate`: the state of a deterministic generator after drawing and
discarding `k` values one by one. -/
def sampleN {σ : Type} (next : σ → σ) (k : Nat) (s : σ) : σ :=
  Nat.iterate next k s

/-- The batched skip-ahead loop of `SeedGenerator.init_generator` (seed.py
lines 109-112) and `Seed.init_pos` (trackable_dataset.py lines 168-171):

    while n > 100000:
        random_generator.random_sample(100000)
        n -= 100000
    random_generator.random_sample(n)

A batch draw of `k` values advances the generator state by `k` steps. -/
def skipLoop {σ : Type} (next : σ → σ) (s : σ) (n : Nat) : σ :=
  if 100000 < n then skipLoop next (sampleN next 100000 s) (n - 100000)
  else sampleN next n s
termination_by n
decreasing_by omega

/-- The generator state produced for a chunk by
`SeedGenerator.init_generator` / `Seed.init_pos` from the state `s` reached
after seeding (and the shuffle every worker performs identically):
`random_numbers_to_skip = first_seed_of_chunk * 3` (seed.py line 106,
trackable_dataset.py line 167; 3 draws per seed for x, y, z), then the
batched discard loop. -/
def init_generator_skip {σ : Type} (next : σ → σ) (s : σ)
    (first_seed_of_chunk : Nat) : σ :=
  skipLoop next s (first_seed_of_chunk * 3)

/-- Spatial dimensions of a `Dataset` (trackable_dataset.py line 22). -/
structure Dataset where
  dimx : Nat
  dimy : Nat
  dimz : Nat

/-- `Dataset.isVoxelInBound` (trackable_dataset.py lines 38-44). -/
def isVoxelInBound (d : Dataset) (x y z : Int) : Bool :=
  decide (x < (d.dimx : Int)) && decide (y < (d.dimy : Int)) &&
  decide (z < (d.dimz : Int)) &&
  decide (0 ≤ x) && decide (0 ≤ y) && decide (0 ≤ z)

/-- One component of the clamp `max(0, min(dim - 1, c))`
(trackable_dataset.py lines 32-34). -/
def clampCoord (dim : Nat) (c : Int) : Int :=
  max 0 (min ((dim : Int) - 1) c)

/-- The index triple `Dataset.getVoxelValue` actually reads
(trackable_dataset.py lines 25-36): the coordinates unchanged when in bound,
otherwise all three clamped componentwise. -/
def getVoxelIndex (d : Dataset) (x y z : Int) : Int × Int × Int :=
  if isVoxelInBound d x y z then (x, y, z)
  else (clampCoord d.dimx x, clampCoord d.dimy y, clampCoord d.dimz z)

/-- `Dataset.getVoxelValue` (trackable_dataset.py lines 25-36), with the
underlying data array abstracted as a total function on indices; the theorem
about it certifies that only in-range indices are ever passed. -/
def getVoxelValue (d : Dataset) (data : Int → Int → Int → Int)
    (x y z : Int) : Int :=
  data (getVoxelIndex d x y z).1 (getVoxelIndex d x y z).2.1
    (getVoxelIndex d x y z).2.2

/-! ## Helper lemmas -/

lemma range_ite_sum (K q r : Nat) :
    ((List.range K).map (fun i => if i < r then q + 1 else q)).sum
      = K * q + min r K := by
  induction K with
  | zero => simp
  | succ n ih =>
    rw [List.range_succ, List.map_append, List.sum_append, ih]
    by_cases h : n < r
    · rw [List.map_singleton, List.sum_singleton, if_pos h, Nat.succ_mul]
      omega
    · rw [List.map_singleton, List.sum_singleton, if_neg h, Nat.succ_mul]
      omega

lemma chunkSizes_length (M K : Nat) : (chunkSizes M K).length = K := by
  simp [chunkSizes]

lemma chunkSizes_sum (M K : Nat) (hK : 0 < K) : (chunkSizes M K).sum = M := by
  have h : (chunkSizes M K).sum = K * (M / K) + min (M % K) K := by
    unfold chunkSizes chunkSize
    exact range_ite_sum K (M / K) (M % K)
  rw [h, Nat.min_eq_left (le_of_lt (Nat.mod_lt M hK)), Nat.div_add_mod]

lemma chunkSizes_getElem (M K i : Nat) (h : i < K) :
    (chunkSizes M K)[i]? = some (chunkSize M K i) := by
  unfold chunkSizes
  rw [List.getElem?_map, List.getElem?_range h]
  rfl

lemma chunkOffset_succ (M K i : Nat) (h : i < K) :
    chunkOffset M K (i + 1) = chunkOffset M K i + chunkSize M K i := by
  unfold chunkOffset
  rw [List.take_succ, List.sum_append, chunkSizes_getElem M K i h]
  simp

lemma scatter_all_false (mask : List Bool) (vals : List (List Int))
    (d : List Int) (h : ∀ b ∈ mask, b = false) :
    scatter mask vals d = List.replicate mask.length d := by
  induction mask generalizing vals with
  | nil => rfl
  | cons b rest ih =>
    have hb : b = false := h b (List.mem_cons_self b rest)
    subst hb
    unfold scatter
    rw [if_neg (by simp)]
    rw [List.length_cons, List.replicate_succ]
    exact congrArg _ (ih vals (fun b hb => h b (List.mem_cons_of_mem _ hb)))

lemma maskAfter_eq_self (m : List Bool) (vol : List (List Int))
    (h : m.length = vol.length)
    (hp : ∀ i, i < m.length →
      m.getD i false = true → derivedMask (vol.getD i []) = true) :
    fit_from_model_maskAfter m vol = m := by
  induction m generalizing vol with
  | nil => rfl
  | cons b rest ih =>
    cases vol with
    | nil => simp at h
    | cons v vrest =>
      unfold fit_from_model_maskAfter
      rw [List.zipWith_cons_cons]
      have hhead : (b && derivedMask v) = b := by
        cases hb : b
        · simp
        · simp only [Bool.true_and]
          exact hp 0 (by simp) (by simp [hb])
      rw [hhead]
      have htail : fit_from_model_maskAfter rest vrest = rest := by
        refine ih vrest (by simpa using h) ?_
        intro i hi ht
        have := hp (i + 1) (by simpa using Nat.succ_lt_succ hi)
        simpa using this (by simpa using ht)
      exact congrArg _ htail

/-! ## Claim theorems -/

/-- C1 (code bug): for a fixed input, `maps_from_sh` with `nbr_processes = 1`
and with `nbr_processes = 2` do NOT produce identical combined aggregates.
The reassembly loop (multi_processes.py line 382) computes
`all_time_max_odf = max(all_time_global_max, max_odf)` — reading the wrong
accumulator — so the final `all_time_max_odf` (which normalizes the rgb map,
line 399) depends on the chunking.  Failing input: two masked voxel rows with
per-row `(sum_odf, global-max contribution)` equal to `(5, 1)` and `(3, 1)`:
one chunk yields `all_time_max_odf = 5`, two chunks yield `3`. -/
theorem c1_chunk_count_changes_aggregate :
    mapsAggregates [some (5, some 1), some (3, some 1)] 2
      ≠ mapsAggregates [some (5, some 1), some (3, some 1)] 1 := by
  decide

/-- C2 (code bug): folding the per-chunk `max_odf` values through the loop of
`maps_from_sh` (multi_processes.py lines 378-383) does not yield the maximum
of the per-chunk `max_odf` values: on chunk results `(max_odf, global_max)`
of `(5, 1)` and `(3, 1)` the loop ends with `all_time_max_odf = 3` while the
maximum over chunks is `5`.  The second aggregate is folded correctly: the
final `all_time_global_max` equals the maximum over chunks of `global_max`
at this input. -/
theorem c2_max_odf_fold_wrong :
    (mapsReduce [ChunkAgg.mk 5 (some 1), ChunkAgg.mk 3 (some 1)]).1 = some 3
    ∧ foldMaxOdf [ChunkAgg.mk 5 (some 1), ChunkAgg.mk 3 (some 1)] = some 5
    ∧ (mapsReduce [ChunkAgg.mk 5 (some 1), ChunkAgg.mk 3 (some 1)]).2
        = foldGlobalMax [ChunkAgg.mk 5 (some 1), ChunkAgg.mk 3 (some 1)] := by
  decide

/-- C3: the batched skip-ahead of `SeedGenerator.init_generator` (seed.py
lines 106-112) and `Seed.init_pos` (trackable_dataset.py lines 167-171)
leaves the generator in exactly the state a freshly seeded sequential
generator reaches after drawing and discarding `first_seed_of_chunk * 3`
values — for every offset, including those spanning several 100000-draw
batches — and therefore both generators produce identical subsequent
draws. -/
theorem c3_skip_ahead_equiv {σ : Type} (next : σ → σ) (s : σ) (o : Nat) :
    init_generator_skip next s o = sampleN next (o * 3) s
    ∧ ∀ k, sampleN next k (init_generator_skip next s o)
        = sampleN next (o * 3 + k) s := by
  have hloop : ∀ n : Nat, ∀ s0 : σ, skipLoop next s0 n = sampleN next n s0 := by
    intro n
    induction n using Nat.strong_induction_on with
    | _ n ih =>
      intro s0
      rw [skipLoop]
      split
      · rename_i h
        rw [ih (n - 100000) (by omega)]
        unfold sampleN
        rw [← Function.iterate_add_apply]
        congr 1
        omega
      · rfl
  constructor
  · exact hloop (o * 3) s
  · intro k
    have h1 : init_generator_skip next s o = sampleN next (o * 3) s :=
      hloop (o * 3) s
    rw [h1]
    unfold sampleN
    rw [← Function.iterate_add_apply]
    congr 1
    omega

/-- C4: splitting `M` voxels into `K > 0` chunks follows the
"first `M % K` chunks of size `M / K + 1`, the rest of size `M / K`" rule;
there are exactly `K` chunk sizes, they sum to `M`, the cumulative offsets
start at `0`, advance by exactly one chunk size at each step and end at `M`
(so the chunks tile `0..M` contiguously, without gaps or overlap), and any
two chunk sizes differ by at most one. -/
theorem c4_chunk_partition (M K : Nat) (hK : 0 < K) :
    (chunkSizes M K).length = K
    ∧ (chunkSizes M K).sum = M
    ∧ chunkOffset M K 0 = 0
    ∧ (∀ i, i < K → chunkOffset M K (i + 1) = chunkOffset M K i + chunkSize M K i)
    ∧ chunkOffset M K K = M
    ∧ (∀ i j, chunkSize M K i ≤ chunkSize M K j + 1) := by
  refine ⟨chunkSizes_length M K, chunkSizes_sum M K hK, rfl, ?_, ?_, ?_⟩
  · intro i hi
    exact chunkOffset_succ M K i hi
  · unfold chunkOffset
    rw [List.take_of_length_le (le_of_eq (chunkSizes_length M K))]
    exact chunkSizes_sum M K hK
  · intro i j
    unfold chunkSize
    split <;> split <;> omega

/-- C4 witness: splitting 7 voxels into 3 chunks gives sizes summing to 7 and
a final cumulative offset of 7. -/
theorem c4_witness : (chunkSizes 7 3).sum = 7 ∧ chunkOffset 7 3 3 = 7 := by
  have h := c4_chunk_partition 7 3 (by decide)
  exact ⟨h.2.1, h.2.2.2.2.1⟩

/-- C5 counterexample: the derived mask is not `any(volume[x,y,z,:] != 0)`.
At a voxel with channel values `[1, -1]` — nonzero values summing to zero —
the code's `np.sum(data, axis=3).astype(bool)` gives `false` while the
claimed any-nonzero mask gives `true`. -/
theorem c5_counterexample :
    ¬ (derivedMask [1, -1] = anyNonzero [1, -1]) := by
  decide

/-- C5 (amended): when no user mask is supplied the derived effective mask is
true at a voxel exactly when the voxel's channel sum is nonzero; this implies
that some channel is nonzero — so every mask-true voxel carries nonzero
channel data — but the converse fails for voxels whose nonzero channels sum
to zero. -/
theorem c5_derived_mask_sound (v : List Int) (h : derivedMask v = true) :
    anyNonzero v = true := by
  have hsum : v.sum ≠ 0 := of_decide_eq_true h
  by_contra hc
  apply hsum
  apply List.sum_eq_zero
  intro x hx
  by_contra hx0
  apply hc
  unfold anyNonzero
  rw [List.any_eq_true]
  exact ⟨x, hx, by rw [decide_eq_true_eq]; exact hx0⟩

/-- C5 witness: the voxel `[2]` is in the derived mask and indeed has a
nonzero channel. -/
theorem c5_witness : anyNonzero [(2 : Int)] = true :=
  c5_derived_mask_sound [2] (by decide)

/-- C6 counterexample: in `peaks_from_sh` a supplied user mask is NOT ANDed
with a nonzero-data mask.  At a voxel with user-mask value `true` and
all-zero data `[0]`, the claimed effective mask is `false` while the code
uses the user mask unchanged, i.e. `true`. -/
theorem c6_counterexample :
    ¬ (peaks_from_sh_effMaskVox true [0] = (true && anyNonzero [(0 : Int)])) := by
  decide

/-- C6 (amended): only `fit_from_model` combines a supplied user mask with
the derived (sum-nonzero) mask by logical AND; `peaks_from_sh` and
`fit_gamma` (and likewise `maps_from_sh`, `convert_sh_basis`,
`convert_sh_to_sf`) use the user mask unchanged.  Nevertheless, in every
operation the per-voxel function is invoked on a voxel only if it both
satisfies the user mask and carries nonzero channel data, because every chunk
worker skips all-zero rows. -/
theorem c6_mask_combination_per_operation (m : Bool) (v : List Int) :
    fit_from_model_effMaskVox m v = (m && derivedMask v)
    ∧ peaks_from_sh_effMaskVox m v = m
    ∧ fit_gamma_effMaskVox m v = m
    ∧ (fit_from_model_invoked m v = true → m = true ∧ anyNonzero v = true)
    ∧ (peaks_from_sh_invoked m v = true → m = true ∧ anyNonzero v = true)
    ∧ (fit_gamma_invoked m v = true → m = true ∧ anyNonzero v = true) := by
  refine ⟨rfl, rfl, rfl, ?_, ?_, ?_⟩
  · intro h
    simp only [fit_from_model_invoked, fit_from_model_effMaskVox,
      Bool.and_eq_true] at h
    exact ⟨h.1.1, h.2⟩
  · intro h
    simp only [peaks_from_sh_invoked, peaks_from_sh_effMaskVox,
      Bool.and_eq_true] at h
    exact h
  · intro h
    simp only [fit_gamma_invoked, fit_gamma_effMaskVox,
      Bool.and_eq_true] at h
    exact h

/-- C6 witness: at user-mask value `true` and voxel data `[2]`,
`peaks_from_sh` invokes its per-voxel function and the voxel indeed satisfies
the mask and carries nonzero data. -/
theorem c6_witness : true = true ∧ anyNonzero [(2 : Int)] = true :=
  (c6_mask_combination_per_operation true [2]).2.2.2.2.1 (by decide)

/-- C7 counterexample: the number of chunks is not clamped to
`max(1, min(K, M))`.  With `M = 1` active voxel and `K = 4` requested
workers, `np.array_split` creates 4 chunks (three of them empty), not
`max(1, min(4, 1)) = 1`. -/
theorem c7_counterexample :
    ¬ (numChunksOf 1 4 = max 1 (min 4 1)) := by
  decide

/-- C7 (amended): `np.array_split` always creates exactly `K` chunks — there
is no clamping to the voxel count, so with `K > M` some chunks are empty.
Defaulting to the detected hardware concurrency is not uniform either:
`fit_from_model` (and `fit_gamma`) default whenever the requested count is
`≤ 0`, while `peaks_from_sh` (and `maps_from_sh`, `convert_sh_basis`)
default only for a strictly negative request and keep a requested count of
`0` unchanged. -/
theorem c7_worker_count_rules (cpu k : Int) (M K : Nat) :
    numChunksOf M K = K
    ∧ (k ≤ 0 → fit_from_model_nbr cpu (some k) = cpu)
    ∧ (0 < k → fit_from_model_nbr cpu (some k) = k)
    ∧ (k < 0 → peaks_from_sh_nbr cpu (some k) = cpu)
    ∧ (0 ≤ k → peaks_from_sh_nbr cpu (some k) = k) := by
  refine ⟨chunkSizes_length M K, ?_, ?_, ?_, ?_⟩
  · intro h
    simp [fit_from_model_nbr, if_pos h]
  · intro h
    simp only [fit_from_model_nbr]
    rw [if_neg (by omega)]
  · intro h
    simp [peaks_from_sh_nbr, if_pos h]
  · intro h
    simp only [peaks_from_sh_nbr]
    rw [if_neg (by omega)]

/-- C7 witness: a requested worker count of exactly `0` is kept (not
defaulted) by `peaks_from_sh`. -/
theorem c7_witness : peaks_from_sh_nbr 8 (some 0) = 0 :=
  (c7_worker_count_rules 8 0 1 4).2.2.2.2 (by decide)

/-- C8 counterexample: the caller's mask is not read-only.  `fit_from_model`
executes `mask *= mask_any` in place: with a supplied mask `[True]` over a
single voxel of all-zero data, the caller's mask array holds `[False]` after
the call. -/
theorem c8_counterexample :
    ¬ (fit_from_model_maskAfter [true] [[(0 : Int)]] = [true]) := by
  decide

/-- C8 (amended): the caller's volume is never written; the mask is mutated
in place only by `fit_from_model`, which replaces it by its AND with the
derived mask — hence the caller's mask is unchanged precisely when every
mask-true voxel has nonzero channel sum — while `peaks_from_sh` (and the
other operations) leave the caller's mask untouched. -/
theorem c8_mask_mutation (m : List Bool) (vol : List (List Int))
    (h : m.length = vol.length)
    (hp : ∀ i, i < m.length →
      m.getD i false = true → derivedMask (vol.getD i []) = true) :
    fit_from_model_maskAfter m vol = m ∧ peaks_from_sh_maskAfter m = m :=
  ⟨maskAfter_eq_self m vol h hp, rfl⟩

/-- C8 witness: with mask `[true]` over the voxel `[2]` (nonzero sum), the
mask survives `fit_from_model` unchanged. -/
theorem c8_witness : fit_from_model_maskAfter [true] [[(2 : Int)]] = [true] :=
  (c8_mask_mutation [true] [[2]] (by decide) (by decide)).1

/-- C9 counterexample: on an input whose effective mask is empty (one voxel
of all-zero data, no user mask), `fit_gamma` completes and returns the
all-default result but emits NO warning: its source contains no logging call,
so the claimed non-fatal warning signal to the caller does not exist. -/
theorem c9_counterexample :
    (fit_gammaW (fun r => List.replicate 4 1) [[(0 : Int)]] none 1).1
      = [List.replicate 4 0]
    ∧ (fit_gammaW (fun r => List.replicate 4 1) [[(0 : Int)]] none 1).2 = [] := by
  decide

/-- C9 (amended): when the effective mask has zero active voxels the call is
not an error: `fit_gamma` completes and returns a ResultVolume of the correct
shape with every entry at the default zero value — but it emits no warning;
the only empty-set warning in the sources is logged by
`SeedGenerator.__init__` when its list of candidate seed voxels is empty. -/
theorem c9_empty_mask_all_default (f : List Int → List Int)
    (vol : List (List Int)) (um : Option (List Bool)) (K : Nat)
    (hK : 0 < K)
    (hlen : (effMaskNoAnd um vol).length = vol.length)
    (hempty : (effMaskNoAnd um vol).count true = 0) :
    (fit_gammaW f vol um K).1 = List.replicate vol.length (List.replicate 4 0)
    ∧ (fit_gammaW f vol um K).2 = []
    ∧ seedGeneratorWarns 0 = true := by
  refine ⟨?_, rfl, rfl⟩
  have hall : ∀ b ∈ effMaskNoAnd um vol, b = false := by
    intro b hb
    cases hb2 : b
    · rfl
    · exfalso
      rw [List.count_eq_zero] at hempty
      rw [hb2] at hb
      exact hempty hb
  unfold fit_gammaW
  rw [scatter_all_false _ _ _ hall, hlen]

/-- C9 witness: on a one-voxel volume of all-zero data with no user mask,
`fit_gamma` returns the all-zero result of length 1. -/
theorem c9_witness :
    (fit_gammaW (fun r => List.replicate 4 1) [[(0 : Int)]] none 2).1
      = List.replicate 1 (List.replicate 4 0) :=
  (c9_empty_mask_all_default (fun r => List.replicate 4 1) [[0]] none 2
    (by decide) (by decide) (by decide)).1

/-- C10: `Dataset.getVoxelValue` at any integer coordinates — in or out of
bound — reads the index obtained by clamping each coordinate to
`max(0, min(dim - 1, c))`; for a nonempty dataset every component of that
index lies in `[0, dim)`, so the access never indexes outside the data
array, and for in-bound coordinates the value at exactly `(x, y, z)` is
returned. -/
theorem c10_voxel_access_clamped (d : Dataset) (x y z : Int)
    (hx : 0 < d.dimx) (hy : 0 < d.dimy) (hz : 0 < d.dimz) :
    getVoxelIndex d x y z
        = (clampCoord d.dimx x, clampCoord d.dimy y, clampCoord d.dimz z)
    ∧ (0 ≤ (getVoxelIndex d x y z).1
        ∧ (getVoxelIndex d x y z).1 < (d.dimx : Int))
    ∧ (0 ≤ (getVoxelIndex d x y z).2.1
        ∧ (getVoxelIndex d x y z).2.1 < (d.dimy : Int))
    ∧ (0 ≤ (getVoxelIndex d x y z).2.2
        ∧ (getVoxelIndex d x y z).2.2 < (d.dimz : Int))
    ∧ (isVoxelInBound d x y z = true → getVoxelIndex d x y z = (x, y, z))
    ∧ (∀ data : Int → Int → Int → Int,
        getVoxelValue d data x y z
          = data (clampCoord d.dimx x) (clampCoord d.dimy y)
              (clampCoord d.dimz z)) := by
  have hb : isVoxelInBound d x y z = true ↔
      (x < (d.dimx : Int) ∧ y < (d.dimy : Int) ∧ z < (d.dimz : Int)
        ∧ 0 ≤ x ∧ 0 ≤ y ∧ 0 ≤ z) := by
    simp [isVoxelInBound, Bool.and_eq_true, decide_eq_true_eq, and_assoc]
  have hidx : getVoxelIndex d x y z
      = (clampCoord d.dimx x, clampCoord d.dimy y, clampCoord d.dimz z) := by
    unfold getVoxelIndex
    split
    · rename_i hin
      rw [hb] at hin
      obtain ⟨h1, h2, h3, h4, h5, h6⟩ := hin
      simp only [Prod.mk.injEq, clampCoord]
      refine ⟨?_, ?_, ?_⟩ <;> omega
    · rfl
  refine ⟨hidx, ?_, ?_, ?_, ?_, ?_⟩
  · rw [hidx]
    simp only [clampCoord]
    omega
  · rw [hidx]
    simp only [clampCoord]
    omega
  · rw [hidx]
    simp only [clampCoord]
    omega
  · intro hin
    unfold getVoxelIndex
    rw [if_pos hin]
  · intro data
    unfold getVoxelValue
    rw [hidx]

/-- C10 witness: in a 4×4×4 dataset the out-of-bound coordinates
`(-2, 10, 1)` are clamped to the in-range index `(0, 3, 1)`. -/
theorem c10_witness : getVoxelIndex (Dataset.mk 4 4 4) (-2) 10 1 = (0, 3, 1) :=
  ((c10_voxel_access_clamped (Dataset.mk 4 4 4) (-2) 10 1 (by decide)
    (by decide) (by decide)).1).trans (by decide)
